import Mathlib

/-!
Verification of the word-play spaced-repetition core:
the SM-2 scheduler (`SM2Algorithm`), the progress store codec
(`ProgressTracker.exportData` / `importData`), and the Google-Drive
merge engine (`GoogleDriveSync.mergeUserProgress` / `mergeData` /
`syncWithGoogleDrive`).

Modelling conventions:
* JS `number` date values (milliseconds since epoch) are modelled as `ℤ`.
* JS float arithmetic is modelled over `ℚ` with the source's decimal
  literals read as exact rationals.
* `Math.round x` is `⌊x + 1/2⌋` (JS rounds half toward +∞).
* optional / possibly-`undefined` fields are `Option` values; JS
  truthiness of an optional number is `Option.isSome` refined by
  `n ≠ 0` (the number 0 is falsy).
* calendar day addition (`Date.setDate`) is modelled as adding
  `interval * 86400000` ms; no claim depends on calendar details.
-/

namespace WordPlay

/-- JS `Math.round`: round half toward positive infinity. -/
def jsRound (x : ℚ) : ℤ := ⌊x + 1/2⌋

/-- Milliseconds in a day, for the `nextReview.setDate(... + interval)` step. -/
def msPerDay : ℤ := 86400000

/-- The `UserProgress` record shape used by `SM2Algorithm`
(fields as in `initializeUserProgress`); dates are ms since epoch. -/
structure UserProgress where
  wordId : String
  easeFactor : ℚ
  repetitions : ℤ
  interval : ℤ
  nextReview : ℤ
  totalSeen : ℤ
  correctCount : ℤ
  accuracy : ℚ
  lastReviewed : ℤ
  masteryLevel : ℤ
  deriving Repr, DecidableEq

/-- The `SM2Result` shape returned by `SM2Algorithm.calculateNextReview`. -/
structure SM2Result where
  easeFactor : ℚ
  repetitions : ℤ
  interval : ℤ
  nextReview : ℤ
  deriving Repr, DecidableEq

/-- `SM2Algorithm.calculateNextReview(userProgress, quality)`;
`now` models `new Date()`. -/
def calculateNextReview (now : ℤ) (p : UserProgress) (quality : ℤ) : SM2Result :=
  let ri : ℤ × ℤ :=
    if 3 ≤ quality then
      (p.repetitions + 1,
        if p.repetitions = 0 then 1
        else if p.repetitions = 1 then 6
        else jsRound ((p.interval : ℚ) * p.easeFactor))
    else (0, 1)
  let ef : ℚ :=
    p.easeFactor + (1/10 - (5 - (quality : ℚ)) * (8/100 + (5 - (quality : ℚ)) * (2/100)))
  { easeFactor := if ef < 13/10 then 13/10 else ef
    repetitions := ri.1
    interval := ri.2
    nextReview := now + ri.2 * msPerDay }

/-- `SM2Algorithm.initializeUserProgress(wordId)`. -/
def initializeUserProgress (now : ℤ) (wordId : String) : UserProgress :=
  { wordId := wordId
    easeFactor := 5/2
    repetitions := 0
    interval := 1
    nextReview := now
    totalSeen := 0
    correctCount := 0
    accuracy := 0
    lastReviewed := now
    masteryLevel := 0 }

/-- `SM2Algorithm.updateUserProgress(userProgress, quality)`. -/
def updateUserProgress (now : ℤ) (p : UserProgress) (quality : ℤ) : UserProgress :=
  let sm2Result := calculateNextReview now p quality
  let totalSeen := p.totalSeen + 1
  let correctCount := if 3 ≤ quality then p.correctCount + 1 else p.correctCount
  let accuracy : ℚ := (correctCount : ℚ) / (totalSeen : ℚ)
  let masteryLevel :=
    min 100 (jsRound (accuracy * 100 * (1 + (sm2Result.repetitions : ℚ) * (1/10))))
  { p with
      easeFactor := sm2Result.easeFactor
      repetitions := sm2Result.repetitions
      interval := sm2Result.interval
      nextReview := sm2Result.nextReview
      totalSeen := totalSeen
      correctCount := correctCount
      accuracy := accuracy
      lastReviewed := now
      masteryLevel := masteryLevel }

/-- A sequence of reviews applied through `updateUserProgress`. -/
def applyReviews (now : ℤ) (p : UserProgress) (qs : List ℤ) : UserProgress :=
  qs.foldl (fun r q => updateUserProgress now r q) p

/-- A sample record with a running streak, for concrete instantiations. -/
def sampleRec : UserProgress :=
  { wordId := "w"
    easeFactor := 5/2
    repetitions := 4
    interval := 10
    nextReview := 0
    totalSeen := 6
    correctCount := 5
    accuracy := 5/6
    lastReviewed := 0
    masteryLevel := 70 }

/-! ## Merge engine (`GoogleDriveSync.mergeUserProgress`)

The merge operates on loosely-typed parsed-JSON records; optional fields
are `Option` values and JS truthiness of an optional number is
`jsTruthy`. -/

/-- A progress record as seen by the merge engine (parsed JSON, so
`lastReviewed` / `lastModified` / `syncVersion` may be absent). -/
structure PRecord where
  wordId : String
  easeFactor : ℚ
  repetitions : ℤ
  interval : ℤ
  nextReview : ℤ
  totalSeen : ℤ
  correctCount : ℤ
  accuracy : ℚ
  lastReviewed : Option ℤ
  masteryLevel : ℤ
  lastModified : Option ℤ
  syncVersion : Option ℤ
  deriving Repr, DecidableEq

/-- The `SyncConflict` shape pushed by `mergeUserProgress`. -/
structure SyncConflict where
  wordId : String
  localData : PRecord
  remoteData : PRecord
  conflictType : String
  deriving Repr, DecidableEq

/-- JS truthiness of an optional number: absent and `0` are falsy. -/
def jsTruthy : Option ℤ → Bool
  | none => false
  | some n => n != 0

/-- The `if (!progress.lastModified) { progress.lastModified =
progress.lastReviewed || new Date(); progress.syncVersion = 1; }`
normalization applied to every record entering the merge. -/
def normalizeRecord (now : ℤ) (r : PRecord) : PRecord :=
  match r.lastModified with
  | some _ => r
  | none => { r with lastModified := some (r.lastReviewed.getD now), syncVersion := some 1 }

/-- `hasSignificantDifference` of the merge: repetitions, masteryLevel or
correctCount differ. -/
def hasSignificantDifference (existing progress : PRecord) : Bool :=
  existing.repetitions != progress.repetitions ||
    existing.masteryLevel != progress.masteryLevel ||
    existing.correctCount != progress.correctCount

/-- The conflict test of `mergeUserProgress`: both syncVersions truthy and
different, timestamps more than 5 minutes (300000 ms) apart, and a
significant field differs. -/
def conflictCondition (existing progress : PRecord) : Bool :=
  jsTruthy existing.syncVersion && jsTruthy progress.syncVersion &&
    existing.syncVersion != progress.syncVersion &&
    decide ((300000 : ℤ) < |existing.lastModified.getD 0 - progress.lastModified.getD 0|) &&
    hasSignificantDifference existing progress

/-- The same-timestamp tiebreak: remote wins when it has strictly more
repetitions, or equal repetitions and strictly higher masteryLevel. -/
def moreAdvanced (progress existing : PRecord) : Bool :=
  decide (existing.repetitions < progress.repetitions) ||
    (progress.repetitions == existing.repetitions &&
      decide (existing.masteryLevel < progress.masteryLevel))

/-- `Map.set` on a wordId-keyed association list: replace in place, else
append (JS `Map` keeps insertion order). -/
def upsert : List PRecord → PRecord → List PRecord
  | [], r => [r]
  | x :: xs, r => if x.wordId == r.wordId then r :: xs else x :: upsert xs r

/-- `Map.get` by wordId. -/
def findByWordId (l : List PRecord) (w : String) : Option PRecord :=
  l.find? (fun r => r.wordId == w)

/-- One step of the `remote.forEach` loop of `mergeUserProgress`
(lines 316–369): normalize, detect a conflict, then timestamp-based
resolution. -/
def mergeStep (now : ℤ) (acc : List PRecord × List SyncConflict) (progress0 : PRecord) :
    List PRecord × List SyncConflict :=
  let progress := normalizeRecord now progress0
  match findByWordId acc.1 progress.wordId with
  | none => (upsert acc.1 progress, acc.2)
  | some existing =>
      let localTime := existing.lastModified.getD 0
      let remoteTime := progress.lastModified.getD 0
      let conflicts :=
        if conflictCondition existing progress then
          acc.2 ++ [{ wordId := progress.wordId, localData := existing,
                      remoteData := progress, conflictType := "both-modified" }]
        else acc.2
      let merged :=
        if localTime < remoteTime then upsert acc.1 progress
        else if remoteTime < localTime then acc.1
        else if moreAdvanced progress existing then upsert acc.1 progress
        else acc.1
      (merged, conflicts)

/-- The final pass of `mergeUserProgress` (lines 379–385): every merged
record gets `syncVersion = (syncVersion || 0) + 1` and
`lastModified = new Date()`. -/
def stampRecord (now : ℤ) (r : PRecord) : PRecord :=
  { r with syncVersion := some (r.syncVersion.getD 0 + 1), lastModified := some now }

/-- `GoogleDriveSync.mergeUserProgress(local, remote)`, returning the merged
records together with the conflicts it pushes. -/
def mergeUserProgress (now : ℤ) (loc rem : List PRecord) :
    List PRecord × List SyncConflict :=
  let merged0 := loc.foldl (fun acc r => upsert acc (normalizeRecord now r)) []
  let res := rem.foldl (mergeStep now) (merged0, [])
  (res.1.map (stampRecord now), res.2)

/-- The timestamp-based resolution of lines 356–367 as a choice between the
two (normalized) records: newer `lastModified` wins; on a tie the remote
record wins exactly when `moreAdvanced`. -/
def resolvePair (a b : PRecord) : PRecord :=
  if a.lastModified.getD 0 < b.lastModified.getD 0 then b
  else if b.lastModified.getD 0 < a.lastModified.getD 0 then a
  else if moreAdvanced b a then b
  else a

/-! ## Sync orchestrator (`GoogleDriveSync.mergeData` / `syncWithGoogleDrive`)

The network steps are modelled by an explicit environment recording the
outcome of each external call; the locally persisted record state is the
`List PRecord` threaded through. -/

/-- Outcomes of the external calls made during one merge-strategy sync. -/
structure MergeEnv where
  fileExists : Bool
  downloadOk : Bool
  remote : List PRecord
  uploadOk : Bool
  deriving Repr, DecidableEq

/-- `GoogleDriveSync.mergeData` (lines 228–298): no remote file → upload
only; download failure → throw before any import; otherwise merge, commit
locally via `ProgressTracker.importData` (line 292), then upload. Returns
the persisted record state and the error, if any. -/
def mergeDataRun (now : ℤ) (env : MergeEnv) (store : List PRecord) :
    List PRecord × Option String :=
  if env.fileExists = false then
    (store, if env.uploadOk then none else some "Google Drive upload failed")
  else if env.downloadOk = false then
    (store, some "Google Drive download failed")
  else
    let merged := (mergeUserProgress now store env.remote).1
    (merged, if env.uploadOk then none else some "Google Drive upload failed")

/-- The stored `SyncStatus` (lastSyncTime, isSyncing, error). -/
structure SyncStatusM where
  lastSyncTime : Option ℤ
  isSyncing : Bool
  error : Option String
  deriving Repr, DecidableEq

/-- `GoogleDriveSync.syncWithGoogleDrive('merge')` (lines 210–226): line 211
overwrites the stored status with `{null, true, null}` without inspecting
the previous one (there is no in-flight check and no `SyncInProgressError`
anywhere in the source), runs `mergeData`, and the `finally` clears
`isSyncing` on whatever status the strategy left. -/
def syncWithGoogleDriveMergeRun (now : ℤ) (env : MergeEnv) (prev : SyncStatusM)
    (store : List PRecord) : List PRecord × SyncStatusM × Option String :=
  let st1 : SyncStatusM := { lastSyncTime := none, isSyncing := true, error := none }
  let res := mergeDataRun now env store
  let stAfterStrategy : SyncStatusM :=
    if env.fileExists ∧ env.downloadOk = false then st1
    else if env.uploadOk then { lastSyncTime := some now, isSyncing := false, error := none }
    else { lastSyncTime := none, isSyncing := false, error := some "Google Drive upload failed" }
  (res.1, { stAfterStrategy with isSyncing := false }, res.2)

/-! ## Snapshot codec (`ProgressTracker.exportData` / `importData`)

`Date` values serialize to ISO-8601 text at millisecond precision; that
encoding is a bijection on the representable range and is modelled by the
`Iso` wrapper around the millisecond value the text denotes. Stored
(parsed-JSON) shapes hold `Iso`; in-memory shapes hold the revived `ℤ`
dates. `getUserProgress` revives `nextReview` and `lastReviewed` only, so
`lastModified` stays encoded in memory, exactly as in the source. -/

/-- An ISO-8601 date string, identified by the millisecond value it denotes. -/
structure Iso where
  ms : ℤ
  deriving Repr, DecidableEq

/-- `Date.toISOString()` as used by `JSON.stringify` on a `Date`. -/
def encodeDate (t : ℤ) : Iso := ⟨t⟩

/-- `new Date(isoText).getTime()`. -/
def parseDate (s : Iso) : ℤ := s.ms

/-- A `UserProgress` element of the stored JSON document. -/
structure StoredProgress where
  wordId : String
  easeFactor : ℚ
  repetitions : ℤ
  interval : ℤ
  nextReview : Iso
  totalSeen : ℤ
  correctCount : ℤ
  accuracy : ℚ
  lastReviewed : Iso
  masteryLevel : ℤ
  lastModified : Option Iso
  syncVersion : Option ℤ
  deriving Repr, DecidableEq

/-- A `UserProgress` element as returned by `getUserProgress`:
`nextReview` and `lastReviewed` revived to `Date`, the rest untouched. -/
structure MemProgress where
  wordId : String
  easeFactor : ℚ
  repetitions : ℤ
  interval : ℤ
  nextReview : ℤ
  totalSeen : ℤ
  correctCount : ℤ
  accuracy : ℚ
  lastReviewed : ℤ
  masteryLevel : ℤ
  lastModified : Option Iso
  syncVersion : Option ℤ
  deriving Repr, DecidableEq

/-- The per-record revival in `getUserProgress`. -/
def reviveProgress (s : StoredProgress) : MemProgress :=
  { wordId := s.wordId, easeFactor := s.easeFactor, repetitions := s.repetitions
    interval := s.interval, nextReview := parseDate s.nextReview
    totalSeen := s.totalSeen, correctCount := s.correctCount, accuracy := s.accuracy
    lastReviewed := parseDate s.lastReviewed, masteryLevel := s.masteryLevel
    lastModified := s.lastModified, syncVersion := s.syncVersion }

/-- `JSON.stringify` of an in-memory progress record (dates to ISO text). -/
def encodeProgress (m : MemProgress) : StoredProgress :=
  { wordId := m.wordId, easeFactor := m.easeFactor, repetitions := m.repetitions
    interval := m.interval, nextReview := encodeDate m.nextReview
    totalSeen := m.totalSeen, correctCount := m.correctCount, accuracy := m.accuracy
    lastReviewed := encodeDate m.lastReviewed, masteryLevel := m.masteryLevel
    lastModified := m.lastModified, syncVersion := m.syncVersion }

/-- A `TestResult` element of the stored JSON document. -/
structure StoredTestResult where
  wordId : String
  correct : Bool
  timeSpent : ℤ
  timestamp : Iso
  deriving Repr, DecidableEq

/-- A `TestResult` as returned by `getTestResults` (timestamp revived). -/
structure MemTestResult where
  wordId : String
  correct : Bool
  timeSpent : ℤ
  timestamp : ℤ
  deriving Repr, DecidableEq

/-- The per-result revival in `getTestResults`. -/
def reviveTestResult (s : StoredTestResult) : MemTestResult :=
  { wordId := s.wordId, correct := s.correct, timeSpent := s.timeSpent
    timestamp := parseDate s.timestamp }

/-- `JSON.stringify` of an in-memory test result. -/
def encodeTestResult (m : MemTestResult) : StoredTestResult :=
  { wordId := m.wordId, correct := m.correct, timeSpent := m.timeSpent
    timestamp := encodeDate m.timestamp }

/-- A session-log element of the stored JSON document (flashcard or test
session); `itemCount` stands for the remaining non-date payload, which is
carried through unchanged. -/
structure StoredSession where
  id : String
  startTime : Iso
  endTime : Option Iso
  itemCount : ℤ
  deriving Repr, DecidableEq

/-- A session log as returned by the getters: `startTime` revived,
`endTime` revived when present (`s.endTime ? new Date(s.endTime) :
undefined`). -/
structure MemSession where
  id : String
  startTime : ℤ
  endTime : Option ℤ
  itemCount : ℤ
  deriving Repr, DecidableEq

/-- The per-session revival in `getFlashcardSessions` / `getTestSessions`. -/
def reviveSession (s : StoredSession) : MemSession :=
  { id := s.id, startTime := parseDate s.startTime
    endTime := s.endTime.map parseDate, itemCount := s.itemCount }

/-- `JSON.stringify` of an in-memory session; an `undefined` `endTime` is
dropped from the output document. -/
def encodeSession (m : MemSession) : StoredSession :=
  { id := m.id, startTime := encodeDate m.startTime
    endTime := m.endTime.map encodeDate, itemCount := m.itemCount }

/-- The four collections persisted under the `STORAGE_KEYS`. -/
structure StoreState where
  userProgress : List StoredProgress
  testResults : List StoredTestResult
  flashcardSessions : List StoredSession
  testSessions : List StoredSession
  deriving Repr, DecidableEq

/-- The JSON document produced by `exportData` and accepted by
`importData`; collections an arbitrary document may omit are `Option`
(`importData` checks `if (data.userProgress)` etc.). -/
structure ExportDoc where
  userProgress : Option (List StoredProgress)
  testResults : Option (List StoredTestResult)
  flashcardSessions : Option (List StoredSession)
  testSessions : Option (List StoredSession)
  exportDate : Iso
  deriving Repr, DecidableEq

/-- `ProgressTracker.exportData()`: stringify the revived collections plus
an `exportDate`. -/
def exportData (now : ℤ) (s : StoreState) : ExportDoc :=
  { userProgress := some ((s.userProgress.map reviveProgress).map encodeProgress)
    testResults := some ((s.testResults.map reviveTestResult).map encodeTestResult)
    flashcardSessions := some ((s.flashcardSessions.map reviveSession).map encodeSession)
    testSessions := some ((s.testSessions.map reviveSession).map encodeSession)
    exportDate := encodeDate now }

/-- `ProgressTracker.importData(jsonData)`: replace each collection that is
present in the document, keep the stored one otherwise. -/
def importData (doc : ExportDoc) (s : StoreState) : StoreState :=
  { userProgress := doc.userProgress.getD s.userProgress
    testResults := doc.testResults.getD s.testResults
    flashcardSessions := doc.flashcardSessions.getD s.flashcardSessions
    testSessions := doc.testSessions.getD s.testSessions }

/-- The in-memory snapshot the getters present (records, review events,
session logs). -/
structure Snapshot where
  userProgress : List MemProgress
  testResults : List MemTestResult
  flashcardSessions : List MemSession
  testSessions : List MemSession
  deriving Repr, DecidableEq

/-- All four getters applied to the store. -/
def getSnapshot (s : StoreState) : Snapshot :=
  { userProgress := s.userProgress.map reviveProgress
    testResults := s.testResults.map reviveTestResult
    flashcardSessions := s.flashcardSessions.map reviveSession
    testSessions := s.testSessions.map reviveSession }

/-! ## Concrete records used by witnesses and counterexamples -/

/-- A merge-engine record with a syncVersion of 0: the spec's data model
allows `syncVersion : int ≥ 0`, but 0 is falsy in the source's truthiness
test. -/
def cexA : PRecord :=
  { wordId := "w", easeFactor := 2, repetitions := 3, interval := 10
    nextReview := 0, totalSeen := 5, correctCount := 4, accuracy := 1
    lastReviewed := some 0, masteryLevel := 60
    lastModified := some 0, syncVersion := some 0 }

/-- The remote counterpart of `cexA`: nonzero differing syncVersion, more
than 5 minutes apart, significantly different. -/
def cexB : PRecord :=
  { wordId := "w", easeFactor := 2, repetitions := 1, interval := 1
    nextReview := 0, totalSeen := 5, correctCount := 2, accuracy := 0
    lastReviewed := some 601000, masteryLevel := 20
    lastModified := some 601000, syncVersion := some 2 }

/-- The spec's conflict scenario, local side: repetitions 3, mastery 60. -/
def c3A : PRecord :=
  { wordId := "ephemeral", easeFactor := 2, repetitions := 3, interval := 10
    nextReview := 0, totalSeen := 5, correctCount := 4, accuracy := 1
    lastReviewed := some 0, masteryLevel := 60
    lastModified := some 0, syncVersion := some 1 }

/-- The spec's conflict scenario, remote side: repetitions 1, mastery 20,
ten minutes newer. -/
def c3B : PRecord :=
  { wordId := "ephemeral", easeFactor := 2, repetitions := 1, interval := 1
    nextReview := 0, totalSeen := 5, correctCount := 2, accuracy := 0
    lastReviewed := some 600000, masteryLevel := 20
    lastModified := some 600000, syncVersion := some 2 }

/-- A record present only on one side of a merge. -/
def c6rec : PRecord :=
  { wordId := "solo", easeFactor := 2, repetitions := 2, interval := 6
    nextReview := 0, totalSeen := 3, correctCount := 3, accuracy := 1
    lastReviewed := some 5, masteryLevel := 50
    lastModified := some 5, syncVersion := some 1 }

/-- A local record for the sync-failure scenarios. -/
def c7A : PRecord :=
  { wordId := "alpha", easeFactor := 2, repetitions := 2, interval := 6
    nextReview := 0, totalSeen := 3, correctCount := 3, accuracy := 1
    lastReviewed := some 5, masteryLevel := 50
    lastModified := some 5, syncVersion := some 1 }

/-- A remote-only record for the sync-failure scenarios. -/
def c7B : PRecord :=
  { wordId := "beta", easeFactor := 2, repetitions := 1, interval := 1
    nextReview := 0, totalSeen := 1, correctCount := 1, accuracy := 1
    lastReviewed := some 9, masteryLevel := 10
    lastModified := some 9, syncVersion := some 4 }

/-- A legacy record without sync metadata (no lastModified, no syncVersion). -/
def c10A : PRecord :=
  { wordId := "legacy", easeFactor := 2, repetitions := 2, interval := 6
    nextReview := 0, totalSeen := 3, correctCount := 2, accuracy := 0
    lastReviewed := some 100, masteryLevel := 40
    lastModified := none, syncVersion := none }

/-- A second legacy record without lastModified, differing significantly. -/
def c10B : PRecord :=
  { wordId := "legacy", easeFactor := 2, repetitions := 5, interval := 20
    nextReview := 0, totalSeen := 9, correctCount := 8, accuracy := 0
    lastReviewed := some 900000000, masteryLevel := 90
    lastModified := none, syncVersion := some 7 }

/-- A stored status with a sync already in flight. -/
def busyStatus : SyncStatusM := { lastSyncTime := none, isSyncing := true, error := none }

/-- Environment: remote file present, download succeeds, upload fails. -/
def envUploadFail : MergeEnv :=
  { fileExists := true, downloadOk := true, remote := [c7B], uploadOk := false }

/-- Environment: remote file present, download fails. -/
def envDownloadFail : MergeEnv :=
  { fileExists := true, downloadOk := false, remote := [c7B], uploadOk := true }

/-- Environment: remote file present, everything succeeds. -/
def envAllOk : MergeEnv :=
  { fileExists := true, downloadOk := true, remote := [c7B], uploadOk := true }

/-- One scheduler step never leaves the ease factor below 1.3. -/
lemma easeFactor_step_ge (now : ℤ) (p : UserProgress) (q : ℤ) :
    (13/10 : ℚ) ≤ (updateUserProgress now p q).easeFactor := by
  show (13/10 : ℚ) ≤ (calculateNextReview now p q).easeFactor
  unfold calculateNextReview
  dsimp only
  split <;> linarith

/-- Applying any nonempty review sequence leaves the ease factor at least 1.3. -/
lemma easeFactor_applyReviews_ge (now : ℤ) :
    ∀ (qs : List ℤ) (q : ℤ) (p : UserProgress),
      (13/10 : ℚ) ≤ (applyReviews now p (q :: qs)).easeFactor := by
  intro qs
  induction qs with
  | nil => intro q p; exact easeFactor_step_ge now p q
  | cons q' qs ih =>
      intro q p
      show (13/10 : ℚ) ≤ (applyReviews now (updateUserProgress now p q) (q' :: qs)).easeFactor
      exact ih q' (updateUserProgress now p q)

/-- C1: for every learning record and quality rating, the SM-2 step rules hold:
with quality ≥ 3 the interval becomes 1 at repetitions 0, 6 at repetitions 1,
and round(interval·easeFactor) otherwise, and repetitions is incremented;
with quality < 3 repetitions becomes 0 and interval becomes 1. -/
theorem sm2_step_rules (now : ℤ) (p : UserProgress) (q : ℤ) :
    (3 ≤ q →
      (calculateNextReview now p q).repetitions = p.repetitions + 1 ∧
      (calculateNextReview now p q).interval =
        (if p.repetitions = 0 then 1
         else if p.repetitions = 1 then 6
         else jsRound ((p.interval : ℚ) * p.easeFactor))) ∧
    (q < 3 →
      (calculateNextReview now p q).repetitions = 0 ∧
      (calculateNextReview now p q).interval = 1) := by
  constructor
  · intro hq
    simp [calculateNextReview, hq]
  · intro hq
    have h : ¬ (3 ≤ q) := by omega
    simp [calculateNextReview, h]

/-- Witness for C1 at a concrete record: one success step and one lapse step. -/
theorem sm2_step_rules_witness :
    ((3:ℤ) ≤ 4 ∧
      (calculateNextReview 0 sampleRec 4).repetitions = sampleRec.repetitions + 1 ∧
      (calculateNextReview 0 sampleRec 4).interval =
        (if sampleRec.repetitions = 0 then 1
         else if sampleRec.repetitions = 1 then 6
         else jsRound ((sampleRec.interval : ℚ) * sampleRec.easeFactor))) ∧
    ((2:ℤ) < 3 ∧
      (calculateNextReview 0 sampleRec 2).repetitions = 0 ∧
      (calculateNextReview 0 sampleRec 2).interval = 1) :=
  ⟨⟨by norm_num, (sm2_step_rules 0 sampleRec 4).1 (by norm_num)⟩,
   ⟨by norm_num, (sm2_step_rules 0 sampleRec 2).2 (by norm_num)⟩⟩

/-- C4: each scheduler step sets easeFactor to
easeFactor + (0.1 − (5−q)·(0.08 + (5−q)·0.02)) clamped below at 1.3; the result
is never below 1.3 (also along any nonempty review sequence), and when the raw
updated value is at least 1.3 no upper bound is applied. -/
theorem easeFactor_update_clamped (now : ℤ) (p : UserProgress) (q : ℤ) :
    ((calculateNextReview now p q).easeFactor =
      (if p.easeFactor + (1/10 - (5 - (q : ℚ)) * (8/100 + (5 - (q : ℚ)) * (2/100))) < 13/10
       then 13/10
       else p.easeFactor + (1/10 - (5 - (q : ℚ)) * (8/100 + (5 - (q : ℚ)) * (2/100))))) ∧
    ((13/10 : ℚ) ≤ (calculateNextReview now p q).easeFactor) ∧
    ((13/10 : ℚ) ≤ p.easeFactor + (1/10 - (5 - (q : ℚ)) * (8/100 + (5 - (q : ℚ)) * (2/100))) →
      (calculateNextReview now p q).easeFactor =
        p.easeFactor + (1/10 - (5 - (q : ℚ)) * (8/100 + (5 - (q : ℚ)) * (2/100)))) ∧
    (∀ qs : List ℤ, qs ≠ [] → (13/10 : ℚ) ≤ (applyReviews now p qs).easeFactor) := by
  refine ⟨rfl, ?_, ?_, ?_⟩
  · unfold calculateNextReview
    dsimp only
    split <;> linarith
  · intro hraw
    unfold calculateNextReview
    dsimp only
    split
    · linarith
    · rfl
  · intro qs hqs
    match qs, hqs with
    | q' :: qs', _ => exact easeFactor_applyReviews_ge now qs' q' p

/-- Witness for C4 at a concrete record, quality 5, and the sequence [0,0,0]. -/
theorem easeFactor_update_clamped_witness :
    ((13/10 : ℚ) ≤ sampleRec.easeFactor +
        (1/10 - (5 - ((5:ℤ) : ℚ)) * (8/100 + (5 - ((5:ℤ) : ℚ)) * (2/100))) ∧
      (calculateNextReview 0 sampleRec 5).easeFactor =
        sampleRec.easeFactor +
          (1/10 - (5 - ((5:ℤ) : ℚ)) * (8/100 + (5 - ((5:ℤ) : ℚ)) * (2/100)))) ∧
    (([0, 0, 0] : List ℤ) ≠ [] ∧
      (13/10 : ℚ) ≤ (applyReviews 0 sampleRec [0, 0, 0]).easeFactor) :=
  ⟨⟨by norm_num [sampleRec],
    (easeFactor_update_clamped 0 sampleRec 5).2.2.1 (by norm_num [sampleRec])⟩,
   ⟨by decide,
    (easeFactor_update_clamped 0 sampleRec 0).2.2.2 [0, 0, 0] (by decide)⟩⟩

/-- C5: after every update masteryLevel equals
min(100, round(accuracy·100·(1 + repetitions'·0.1))) with the post-update
repetitions, and a fresh record reviewed once with quality 5 ends with
repetitions 1, interval 1, totalSeen 1, correctCount 1 and masteryLevel 100. -/
theorem masteryLevel_postUpdate (now : ℤ) (p : UserProgress) (q : ℤ) :
    ((updateUserProgress now p q).masteryLevel =
      min 100 (jsRound ((updateUserProgress now p q).accuracy * 100 *
        (1 + ((updateUserProgress now p q).repetitions : ℚ) * (1/10))))) ∧
    (∀ (t : ℤ) (w : String),
      (updateUserProgress now (initializeUserProgress t w) 5).repetitions = 1 ∧
      (updateUserProgress now (initializeUserProgress t w) 5).interval = 1 ∧
      (updateUserProgress now (initializeUserProgress t w) 5).totalSeen = 1 ∧
      (updateUserProgress now (initializeUserProgress t w) 5).correctCount = 1 ∧
      (updateUserProgress now (initializeUserProgress t w) 5).masteryLevel = 100) := by
  constructor
  · rfl
  · intro t w
    refine ⟨rfl, rfl, rfl, rfl, ?_⟩
    simp [updateUserProgress, initializeUserProgress, calculateNextReview, jsRound]
    norm_num

/-- Normalization never changes the wordId. -/
lemma normalizeRecord_wordId (now : ℤ) (r : PRecord) :
    (normalizeRecord now r).wordId = r.wordId := by
  unfold normalizeRecord
  cases r.lastModified <;> rfl

/-- Normalization is the identity on records that carry a lastModified. -/
lemma normalizeRecord_of_isSome (now : ℤ) (r : PRecord)
    (h : r.lastModified.isSome) : normalizeRecord now r = r := by
  unfold normalizeRecord
  cases hl : r.lastModified with
  | none => rw [hl] at h; simp at h
  | some t => rfl

/-- Evaluation of a merge of two singleton snapshots over the same wordId:
normalize both sides, push a conflict when `conflictCondition` holds, resolve
by `resolvePair`, and stamp the survivor. -/
lemma mergeUserProgress_pair (now : ℤ) (a b : PRecord) (hw : b.wordId = a.wordId) :
    mergeUserProgress now [a] [b] =
      ([stampRecord now (resolvePair (normalizeRecord now a) (normalizeRecord now b))],
       if conflictCondition (normalizeRecord now a) (normalizeRecord now b) then
         [{ wordId := (normalizeRecord now b).wordId,
            localData := normalizeRecord now a,
            remoteData := normalizeRecord now b,
            conflictType := "both-modified" }]
       else []) := by
  have hw' : (normalizeRecord now a).wordId == (normalizeRecord now b).wordId := by
    simp [normalizeRecord_wordId, hw]
  unfold mergeUserProgress mergeStep resolvePair
  simp only [List.foldl, upsert, findByWordId, List.find?]
  rw [show ((normalizeRecord now a).wordId == (normalizeRecord now b).wordId) = true from hw']
  dsimp only
  split_ifs <;> simp_all [upsert]

/-- Claim C2 (amended): for two records of a merge carrying lastModified,
a both-modified SyncConflict is emitted if and only if both carry a truthy
(present and nonzero) syncVersion and the syncVersions differ, the
lastModified timestamps are more than 5 minutes apart, and at least one of
repetitions, masteryLevel or correctCount differs; records differing only
in lastModified never conflict. -/
theorem merge_conflict_iff (now : ℤ) (a b : PRecord) (hw : b.wordId = a.wordId)
    (ha : a.lastModified.isSome) (hb : b.lastModified.isSome) :
    ((mergeUserProgress now [a] [b]).2 =
      (if conflictCondition a b then
        [{ wordId := b.wordId, localData := a, remoteData := b,
           conflictType := "both-modified" }]
       else [])) ∧
    (conflictCondition a b = true ↔
      (jsTruthy a.syncVersion = true ∧ jsTruthy b.syncVersion = true ∧
        a.syncVersion ≠ b.syncVersion ∧
        (300000 : ℤ) < |a.lastModified.getD 0 - b.lastModified.getD 0| ∧
        (a.repetitions ≠ b.repetitions ∨ a.masteryLevel ≠ b.masteryLevel ∨
          a.correctCount ≠ b.correctCount))) ∧
    ((a.repetitions = b.repetitions ∧ a.masteryLevel = b.masteryLevel ∧
        a.correctCount = b.correctCount) →
      (mergeUserProgress now [a] [b]).2 = []) := by
  have hna := normalizeRecord_of_isSome now a ha
  have hnb := normalizeRecord_of_isSome now b hb
  have hpair := mergeUserProgress_pair now a b hw
  rw [hna, hnb] at hpair
  refine ⟨by rw [hpair], ?_, ?_⟩
  · simp [conflictCondition, hasSignificantDifference, and_assoc, or_assoc]
  · intro hsame
    rw [hpair]
    have hc : conflictCondition a b = false := by
      simp [conflictCondition, hasSignificantDifference, hsame.1, hsame.2.1, hsame.2.2]
    simp [hc]

/-- Claim C2, counterexample to the claim as stated: `cexA` carries the
syncVersion 0 (allowed by the data model), `cexB` carries 2; they are over
5 minutes apart and differ significantly, yet the merge emits no conflict,
because 0 is falsy in the source's truthiness test. -/
theorem merge_conflict_iff_cex :
    (cexA.syncVersion.isSome = true ∧ cexB.syncVersion.isSome = true ∧
      cexA.syncVersion ≠ cexB.syncVersion ∧
      (300000 : ℤ) < |cexA.lastModified.getD 0 - cexB.lastModified.getD 0| ∧
      cexA.repetitions ≠ cexB.repetitions ∧
      cexB.wordId = cexA.wordId ∧
      cexA.lastModified.isSome = true ∧ cexB.lastModified.isSome = true) ∧
    (mergeUserProgress 700000 [cexA] [cexB]).2 = [] := by
  constructor
  · refine ⟨rfl, rfl, by decide, by decide, by decide, rfl, rfl, rfl⟩
  · rfl

/-- Witness for the amended C2 at the spec's scenario records. -/
theorem merge_conflict_iff_witness :
    (c3B.wordId = c3A.wordId ∧ c3A.lastModified.isSome = true ∧
      c3B.lastModified.isSome = true) ∧
    ((mergeUserProgress 900000 [c3A] [c3B]).2 =
      (if conflictCondition c3A c3B then
        [{ wordId := c3B.wordId, localData := c3A, remoteData := c3B,
           conflictType := "both-modified" }]
       else [])) :=
  ⟨⟨rfl, rfl, rfl⟩, (merge_conflict_iff 900000 c3A c3B rfl rfl rfl).1⟩

/-- Claim C3: the provisional merged record is the stamped `resolvePair`
winner: newer lastModified wins; on an exact timestamp tie higher
repetitions wins, then higher masteryLevel. -/
theorem merge_resolution (now : ℤ) (a b : PRecord) (hw : b.wordId = a.wordId)
    (ha : a.lastModified.isSome) (hb : b.lastModified.isSome) :
    ((mergeUserProgress now [a] [b]).1 = [stampRecord now (resolvePair a b)]) ∧
    (a.lastModified.getD 0 < b.lastModified.getD 0 → resolvePair a b = b) ∧
    (b.lastModified.getD 0 < a.lastModified.getD 0 → resolvePair a b = a) ∧
    (a.lastModified.getD 0 = b.lastModified.getD 0 →
      (a.repetitions < b.repetitions → resolvePair a b = b) ∧
      (b.repetitions < a.repetitions → resolvePair a b = a) ∧
      (a.repetitions = b.repetitions →
        (a.masteryLevel < b.masteryLevel → resolvePair a b = b) ∧
        (b.masteryLevel < a.masteryLevel → resolvePair a b = a))) := by
  have hna := normalizeRecord_of_isSome now a ha
  have hnb := normalizeRecord_of_isSome now b hb
  have hpair := mergeUserProgress_pair now a b hw
  rw [hna, hnb] at hpair
  refine ⟨by rw [hpair], ?_, ?_, ?_⟩
  · intro h; simp [resolvePair, h]
  · intro h
    have h' : ¬ (a.lastModified.getD 0 < b.lastModified.getD 0) := by omega
    simp [resolvePair, h, h']
  · intro h
    have h1 : ¬ (a.lastModified.getD 0 < b.lastModified.getD 0) := by omega
    have h2 : ¬ (b.lastModified.getD 0 < a.lastModified.getD 0) := by omega
    refine ⟨?_, ?_, ?_⟩
    · intro hr; simp [resolvePair, h1, h2, moreAdvanced, hr]
    · intro hr
      have hnr : ¬ (a.repetitions < b.repetitions) := by omega
      have hne : ¬ (b.repetitions = a.repetitions) := by omega
      simp [resolvePair, h1, h2, moreAdvanced, hnr, hne]
    · intro hr
      refine ⟨?_, ?_⟩
      · intro hm
        simp [resolvePair, h1, h2, moreAdvanced, hr, hm]
      · intro hm
        have hnm : ¬ (a.masteryLevel < b.masteryLevel) := by omega
        have hnr : ¬ (a.repetitions < b.repetitions) := by omega
        simp [resolvePair, h1, h2, moreAdvanced, hr, hnm, hnr]

/-- Witness for C3 at the spec's scenario: the ten-minutes-newer remote
record wins despite fewer repetitions and lower mastery. -/
theorem merge_resolution_witness :
    (c3B.wordId = c3A.wordId ∧ c3A.lastModified.isSome = true ∧
      c3B.lastModified.isSome = true ∧
      c3A.lastModified.getD 0 < c3B.lastModified.getD 0 ∧
      c3B.repetitions < c3A.repetitions) ∧
    ((mergeUserProgress 900000 [c3A] [c3B]).1 =
      [stampRecord 900000 (resolvePair c3A c3B)]) ∧
    resolvePair c3A c3B = c3B :=
  ⟨⟨rfl, rfl, rfl, by decide, by decide⟩,
   (merge_resolution 900000 c3A c3B rfl rfl rfl).1,
   (merge_resolution 900000 c3A c3B rfl rfl rfl).2.1 (by decide)⟩

/-- Claim C6, counterexample to the claim as stated: a record present only
in the local snapshot is not carried over unchanged — the merge bumps its
syncVersion from 1 to 2 and rewrites lastModified to the merge time. -/
theorem merge_frame_cex :
    c6rec.syncVersion = some 1 ∧ c6rec.lastModified = some 5 ∧
    (mergeUserProgress 999 [c6rec] []).1 ≠ [c6rec] ∧
    (mergeUserProgress 999 [c6rec] []).1 =
      [{ c6rec with syncVersion := some 2, lastModified := some 999 }] := by
  refine ⟨rfl, rfl, ?_, rfl⟩
  decide

/-- Claim C6 (amended): a record present in only one side survives with all
fields unchanged except that syncVersion is incremented (a legacy record
lacking lastModified is first normalized to syncVersion 1, ending at 2) and
lastModified is set to the merge time — exactly the stamping every merged
record receives, not only the two-sided resolved ones. -/
theorem merge_oneSided_stamped (now : ℤ) (a : PRecord) :
    ((mergeUserProgress now [a] []).1 = [stampRecord now (normalizeRecord now a)]) ∧
    ((mergeUserProgress now [] [a]).1 = [stampRecord now (normalizeRecord now a)]) ∧
    ((mergeUserProgress now [a] []).2 = []) ∧
    ((mergeUserProgress now [] [a]).2 = []) ∧
    ((stampRecord now (normalizeRecord now a)).wordId = a.wordId ∧
      (stampRecord now (normalizeRecord now a)).easeFactor = a.easeFactor ∧
      (stampRecord now (normalizeRecord now a)).repetitions = a.repetitions ∧
      (stampRecord now (normalizeRecord now a)).interval = a.interval ∧
      (stampRecord now (normalizeRecord now a)).nextReview = a.nextReview ∧
      (stampRecord now (normalizeRecord now a)).totalSeen = a.totalSeen ∧
      (stampRecord now (normalizeRecord now a)).correctCount = a.correctCount ∧
      (stampRecord now (normalizeRecord now a)).accuracy = a.accuracy ∧
      (stampRecord now (normalizeRecord now a)).lastReviewed = a.lastReviewed ∧
      (stampRecord now (normalizeRecord now a)).masteryLevel = a.masteryLevel ∧
      (stampRecord now (normalizeRecord now a)).lastModified = some now ∧
      (stampRecord now (normalizeRecord now a)).syncVersion =
        some (if a.lastModified.isSome then a.syncVersion.getD 0 + 1 else 2)) := by
  refine ⟨rfl, rfl, rfl, rfl, ?_⟩
  cases hl : a.lastModified <;>
    simp [stampRecord, normalizeRecord, hl]

/-- Claim C10: a record entering the merge without lastModified is treated
as if lastModified were its lastReviewed (or the merge time when that is
absent too) and its syncVersion were 1, before conflict detection and
timestamp resolution; two legacy records never conflict with each other. -/
theorem legacy_normalization (now : ℤ) (r : PRecord) :
    (r.lastModified = none →
      normalizeRecord now r =
        { r with lastModified := some (r.lastReviewed.getD now), syncVersion := some 1 }) ∧
    (∀ a b : PRecord, b.wordId = a.wordId →
      (mergeUserProgress now [a] [b]).2 =
        (if conflictCondition (normalizeRecord now a) (normalizeRecord now b) then
          [{ wordId := (normalizeRecord now b).wordId,
             localData := normalizeRecord now a,
             remoteData := normalizeRecord now b,
             conflictType := "both-modified" }]
         else [])) ∧
    (∀ a b : PRecord, b.wordId = a.wordId →
      a.lastModified = none → b.lastModified = none →
      (mergeUserProgress now [a] [b]).2 = []) := by
  refine ⟨?_, ?_, ?_⟩
  · intro h
    unfold normalizeRecord
    rw [h]
  · intro a b hw
    rw [mergeUserProgress_pair now a b hw]
  · intro a b hw ha hb
    rw [mergeUserProgress_pair now a b hw]
    have hca : (normalizeRecord now a).syncVersion = some 1 := by
      unfold normalizeRecord; rw [ha]
    have hcb : (normalizeRecord now b).syncVersion = some 1 := by
      unfold normalizeRecord; rw [hb]
    have hc : conflictCondition (normalizeRecord now a) (normalizeRecord now b) = false := by
      simp [conflictCondition, hca, hcb]
    simp [hc]

/-- Witness for C10 on concrete legacy records. -/
theorem legacy_normalization_witness :
    (c10A.lastModified = none ∧
      normalizeRecord 7 c10A =
        { c10A with lastModified := some (c10A.lastReviewed.getD 7), syncVersion := some 1 }) ∧
    (c10B.wordId = c10A.wordId ∧ c10A.lastModified = none ∧ c10B.lastModified = none ∧
      (mergeUserProgress 7 [c10A] [c10B]).2 = []) :=
  ⟨⟨rfl, (legacy_normalization 7 c10A).1 rfl⟩,
   ⟨rfl, rfl, rfl, (legacy_normalization 7 c10A).2.2 c10A c10B rfl rfl rfl⟩⟩

/-- Claim C7, counterexample to the claim as stated: an upload failure after
a successful download is an errored sync, yet the locally persisted record
state is the merged state, not the pre-sync state. -/
theorem sync_atomicity_cex :
    ((mergeDataRun 0 envUploadFail [c7A]).2).isSome = true ∧
    (mergeDataRun 0 envUploadFail [c7A]).1 ≠ [c7A] := by
  refine ⟨rfl, ?_⟩
  decide

/-- Claim C7 (amended): failures before the local import (missing remote
file path, download failure) leave the persisted record state unchanged,
but the merged state is committed before the upload, so an upload failure
leaves the merged — not the pre-sync — state persisted. -/
theorem sync_failure_state (now : ℤ) (env : MergeEnv) (store : List PRecord) :
    (env.fileExists = false → (mergeDataRun now env store).1 = store) ∧
    (env.downloadOk = false → (mergeDataRun now env store).1 = store) ∧
    (env.fileExists = true → env.downloadOk = true →
      (mergeDataRun now env store).1 = (mergeUserProgress now store env.remote).1 ∧
      (env.uploadOk = false →
        (mergeDataRun now env store).2 = some "Google Drive upload failed")) := by
  unfold mergeDataRun
  refine ⟨?_, ?_, ?_⟩
  · intro h; simp [h]
  · intro h
    by_cases hf : env.fileExists = false <;> simp [h, hf]
  · intro hf hd
    refine ⟨by simp [hf, hd], fun hu => by simp [hf, hd, hu]⟩

/-- Witness for the amended C7: a download failure keeps the store, an
upload failure commits the merge. -/
theorem sync_failure_state_witness :
    (envDownloadFail.downloadOk = false ∧
      (mergeDataRun 0 envDownloadFail [c7A]).1 = [c7A]) ∧
    (envUploadFail.fileExists = true ∧ envUploadFail.downloadOk = true ∧
      (mergeDataRun 3 envUploadFail [c7A]).1 = (mergeUserProgress 3 [c7A] [c7B]).1) :=
  ⟨⟨rfl, (sync_failure_state 0 envDownloadFail [c7A]).2.1 rfl⟩,
   ⟨rfl, rfl, ((sync_failure_state 3 envUploadFail [c7A]).2.2 rfl rfl).1⟩⟩

/-- Claim C8, counterexample to the claim as stated: with a sync already in
flight (`busyStatus.isSyncing = true`) a second merge-sync request is not
rejected — it reports no error and actually commits a merged store. -/
theorem sync_inflight_cex :
    busyStatus.isSyncing = true ∧
    (syncWithGoogleDriveMergeRun 0 envAllOk busyStatus [c7A]).2.2 = none ∧
    (syncWithGoogleDriveMergeRun 0 envAllOk busyStatus [c7A]).1 ≠ [c7A] := by
  refine ⟨rfl, rfl, ?_⟩
  decide

/-- Claim C8 (amended): the orchestrator never inspects the stored
in-flight flag — a sync request behaves identically whatever the previous
status, runs the merge strategy, returns the strategy's own error (there is
no SyncInProgressError), and merely clears isSyncing at the end. -/
theorem sync_no_inflight_rejection (now : ℤ) (env : MergeEnv)
    (prev prev' : SyncStatusM) (store : List PRecord) :
    (syncWithGoogleDriveMergeRun now env prev store =
      syncWithGoogleDriveMergeRun now env prev' store) ∧
    ((syncWithGoogleDriveMergeRun now env prev store).1 =
      (mergeDataRun now env store).1) ∧
    ((syncWithGoogleDriveMergeRun now env prev store).2.2 =
      (mergeDataRun now env store).2) ∧
    ((syncWithGoogleDriveMergeRun now env prev store).2.1).isSyncing = false :=
  ⟨rfl, rfl, rfl, rfl⟩

/-- Re-stringifying a revived progress record reproduces the stored form. -/
lemma encode_revive_progress (s : StoredProgress) :
    encodeProgress (reviveProgress s) = s := rfl

/-- Re-stringifying a revived test result reproduces the stored form. -/
lemma encode_revive_testResult (s : StoredTestResult) :
    encodeTestResult (reviveTestResult s) = s := rfl

/-- Re-stringifying a revived session reproduces the stored form. -/
lemma encode_revive_session (s : StoredSession) :
    encodeSession (reviveSession s) = s := by
  cases s with
  | mk id st et ic => cases et <;> rfl

/-- Claim C9: importing an export restores exactly the exported collections
(for any prior store contents), the snapshot the getters present is deeply
equal to the exported one, and revival after encoding is exact on every
date-carrying shape. -/
theorem export_import_roundtrip (now : ℤ) (s s0 : StoreState) :
    importData (exportData now s) s0 = s ∧
    getSnapshot (importData (exportData now s) s0) = getSnapshot s ∧
    (∀ m : MemProgress, reviveProgress (encodeProgress m) = m) ∧
    (∀ m : MemTestResult, reviveTestResult (encodeTestResult m) = m) ∧
    (∀ m : MemSession, reviveSession (encodeSession m) = m) := by
  have h1 : importData (exportData now s) s0 = s := by
    cases s with
    | mk up tr fs ts =>
        simp [importData, exportData, List.map_map, Function.comp_def,
          encode_revive_progress, encode_revive_testResult, encode_revive_session]
  refine ⟨h1, by rw [h1], ?_, ?_, ?_⟩
  · intro m; rfl
  · intro m; rfl
  · intro m
    cases m with
    | mk id st et ic => cases et <;> rfl

end WordPlay
